import Mathlib

/-!
Shallow embedding of the iot-weather-ui dashboard client
(`src/unnamed/part_000`, a React component) and proofs about it.

JavaScript numbers are modelled exactly by `JsNum`: NaN, the two
infinities, and finite values as exact rationals.  Exact rationals stand
in for IEEE doubles; negative zero is not representable and float
rounding is not modelled, which is faithful for every property below
(they only involve comparisons, NaN/infinity propagation, and exact
arithmetic on small values).
-/

/-- A JavaScript number: NaN, +Infinity (`inf true`), -Infinity
(`inf false`), or a finite value. -/
inductive JsNum where
  | nan : JsNum
  | inf : Bool → JsNum
  | num : ℚ → JsNum
deriving DecidableEq, Repr

/-- `Number.isFinite`. -/
def jsIsFinite : JsNum → Bool
  | JsNum.num _ => true
  | _ => false

/-- `Number.isNaN`. -/
def jsIsNaN : JsNum → Bool
  | JsNum.nan => true
  | _ => false

/-- JavaScript `+` on numbers: NaN propagates; opposite infinities give
NaN; an infinity absorbs a finite value. -/
def jsAdd : JsNum → JsNum → JsNum
  | JsNum.nan, _ => JsNum.nan
  | _, JsNum.nan => JsNum.nan
  | JsNum.inf a, JsNum.inf b => if a = b then JsNum.inf a else JsNum.nan
  | JsNum.inf a, JsNum.num _ => JsNum.inf a
  | JsNum.num _, JsNum.inf b => JsNum.inf b
  | JsNum.num a, JsNum.num b => JsNum.num (a + b)

/-- JavaScript `-` on numbers. -/
def jsSub : JsNum → JsNum → JsNum
  | JsNum.nan, _ => JsNum.nan
  | _, JsNum.nan => JsNum.nan
  | JsNum.inf a, JsNum.inf b => if a = b then JsNum.nan else JsNum.inf a
  | JsNum.inf a, JsNum.num _ => JsNum.inf a
  | JsNum.num _, JsNum.inf b => JsNum.inf (!b)
  | JsNum.num a, JsNum.num b => JsNum.num (a - b)

/-- JavaScript `/` on numbers.  Zero denominators behave as +0 (ℚ has no
negative zero): `x / 0` is NaN when `x = 0` and a sign-matching infinity
otherwise. -/
def jsDiv : JsNum → JsNum → JsNum
  | JsNum.nan, _ => JsNum.nan
  | _, JsNum.nan => JsNum.nan
  | JsNum.inf _, JsNum.inf _ => JsNum.nan
  | JsNum.inf a, JsNum.num b => if b < 0 then JsNum.inf (!a) else JsNum.inf a
  | JsNum.num _, JsNum.inf _ => JsNum.num 0
  | JsNum.num a, JsNum.num b =>
      if b = 0 then
        if a = 0 then JsNum.nan
        else if 0 < a then JsNum.inf true else JsNum.inf false
      else JsNum.num (a / b)

/-- `Math.min` on two numbers: NaN propagates; -Infinity wins. -/
def jsMin : JsNum → JsNum → JsNum
  | JsNum.nan, _ => JsNum.nan
  | _, JsNum.nan => JsNum.nan
  | JsNum.inf a, JsNum.inf b => JsNum.inf (a && b)
  | JsNum.inf a, JsNum.num q => if a then JsNum.num q else JsNum.inf false
  | JsNum.num q, JsNum.inf b => if b then JsNum.num q else JsNum.inf false
  | JsNum.num a, JsNum.num b => JsNum.num (min a b)

/-- `Math.max` on two numbers: NaN propagates; +Infinity wins. -/
def jsMax : JsNum → JsNum → JsNum
  | JsNum.nan, _ => JsNum.nan
  | _, JsNum.nan => JsNum.nan
  | JsNum.inf a, JsNum.inf b => JsNum.inf (a || b)
  | JsNum.inf a, JsNum.num q => if a then JsNum.inf true else JsNum.num q
  | JsNum.num q, JsNum.inf b => if b then JsNum.inf true else JsNum.num q
  | JsNum.num a, JsNum.num b => JsNum.num (max a b)

/-- The `Stats` record of the source (`min`, `max`, `average`, `count`). -/
structure Stats where
  min : JsNum
  max : JsNum
  average : JsNum
  count : ℕ
deriving DecidableEq, Repr

/-- `collectStats` from the source:
empty input gives `null`; otherwise `Math.min(...values)`,
`Math.max(...values)` (spreads fold from their identities `+Infinity` /
`-Infinity`), `values.reduce((sum, v) => sum + v, 0) / values.length`,
and the length. -/
def collectStats (values : List JsNum) : Option Stats :=
  if values.isEmpty then none
  else
    some
      { min := values.foldl jsMin (JsNum.inf true)
        max := values.foldl jsMax (JsNum.inf false)
        average :=
          jsDiv (values.foldl jsAdd (JsNum.num 0))
            (JsNum.num (values.length : ℚ))
        count := values.length }

/-- The aggregation pipeline exactly as both call sites apply it
(`temperatureStats` / `humidityStats`):
`collectStats(readings.map(...).filter((v) => Number.isFinite(v)))` —
the finite-filter composed with `collectStats`. -/
def statsPipeline (values : List JsNum) : Option Stats :=
  collectStats (values.filter jsIsFinite)

/-- The percent computation of `GaugeArc` from the source:
`safeValue = value ?? 0`, `span = Math.max(max - min, 1)`,
`percent = Math.min(Math.max((safeValue - min) / span, 0), 1)`.
The props `min`/`max` are the literals the page passes, hence finite. -/
def gaugePercent (value : Option JsNum) (minV maxV : ℚ) : JsNum :=
  let safeValue := value.getD (JsNum.num 0)
  let span := max (maxV - minV) 1
  jsMin (jsMax (jsDiv (jsSub safeValue (JsNum.num minV)) (JsNum.num span))
      (JsNum.num 0))
    (JsNum.num 1)

/-- The empty-display test of `GaugeArc` from the source:
`isEmpty = value === undefined || Number.isNaN(value)`. -/
def gaugeIsEmpty : Option JsNum → Bool
  | none => true
  | some v => jsIsNaN v

/-- The `Reading` record of the source.  Optional fields are `Option`;
the numeric fields are JS numbers. -/
structure Reading where
  _id : String
  sensorId : String
  location : String
  temperature : JsNum
  humidity : JsNum
  pressure : Option JsNum
  timestamp : Option String
  createdAt : Option String
  updatedAt : Option String
deriving DecidableEq, Repr

/-- The component state held by the `useState` hooks of `Home`:
`readings`, `limit`, `limitInput`, `lastUpdated` (epoch milliseconds),
`error`, `isFetching`. -/
structure AppState where
  readings : List Reading
  limit : ℤ
  limitInput : String
  lastUpdated : Option ℤ
  error : Option String
  isFetching : Bool
deriving DecidableEq, Repr

/-- `DEFAULT_LIMIT` from the source. -/
def DEFAULT_LIMIT : ℤ := 20

/-- The initial state of the `useState` hooks: empty window, default
limit, its string as the input, no timestamp, no error, not fetching. -/
def initialState : AppState :=
  { readings := [], limit := DEFAULT_LIMIT, limitInput := "20",
    lastUpdated := none, error := none, isFetching := false }

/-- A character that `Number.parseInt` in the environment skips as leading
whitespace (the ASCII members of ECMAScript WhiteSpace/LineTerminator). -/
def jsWhitespace (c : Char) : Bool :=
  c = ' ' || c = '\t' || c = '\n' || c = '\r' || c = '\x0b' || c = '\x0c'

/-- Value of a list of decimal digit characters. -/
def digitsValue (ds : List Char) : ℕ :=
  ds.foldl (fun acc c => acc * 10 + (c.toNat - 48)) 0

/-- `Number.parseInt(s, 10)`: skip leading whitespace, read an optional
sign, then the longest prefix of decimal digits; `none` models the NaN
result when no digit is found.  (Exact integers stand in for the
float-rounded result on astronomically long numerals.) -/
def jsParseInt (s : String) : Option ℤ :=
  let cs := s.toList.dropWhile jsWhitespace
  let signed : Bool × List Char :=
    match cs with
    | '-' :: rest => (true, rest)
    | '+' :: rest => (false, rest)
    | _ => (false, cs)
  let ds := signed.2.takeWhile Char.isDigit
  if ds.isEmpty then none
  else if signed.1 then some (-(digitsValue ds : ℤ))
  else some (digitsValue ds : ℤ)

/-- The validation message of `handleSubmit`. -/
def validationMessage : String := "Enter a valid number of readings."

/-- `handleSubmit` from the source, minus the DOM plumbing: parse the
limit input; when the parse is NaN or the value is `<= 0`, set the
validation error and stop; otherwise set the new limit.  The second
component is the limit of the immediately triggered
`fetchReadings(parsed)` call (`none` when no poll is triggered). -/
def handleSubmit (s : AppState) : AppState × Option ℤ :=
  match jsParseInt s.limitInput with
  | none => ({ s with error := some validationMessage }, none)
  | some parsed =>
      if parsed ≤ 0 then ({ s with error := some validationMessage }, none)
      else ({ s with limit := parsed }, some parsed)

/-- The body a successful `fetch` resolves to: a decoded JSON array of
readings, or any non-array JSON value. -/
inductive Payload where
  | arr : List Reading → Payload
  | nonArray : Payload
deriving DecidableEq, Repr

/-- How one poll resolves.  `httpError` is a non-ok HTTP status (the
code throws its own `Error` carrying the status).  `thrown` is any other
rejection in the `try` block (transport failure, JSON decode failure):
`some m` when the thrown value is an `Error` with message `m`, `none`
when it is not an `Error` instance. -/
inductive FetchOutcome where
  | httpError : ℕ → FetchOutcome
  | thrown : Option String → FetchOutcome
  | success : Payload → FetchOutcome
deriving DecidableEq, Repr

/-- `true` exactly on the failure outcomes. -/
def fetchFails : FetchOutcome → Bool
  | FetchOutcome.success _ => false
  | _ => true

/-- The readings a payload yields:
`setReadings(Array.isArray(data) ? data : [])`. -/
def payloadReadings : Payload → List Reading
  | Payload.arr l => l
  | Payload.nonArray => []

/-- The synchronous prefix of `fetchReadings`:
`setIsFetching(true); setError(null)`. -/
def fetchStart (s : AppState) : AppState :=
  { s with isFetching := true, error := none }

/-- The resolution of `fetchReadings` after the request settles: the
non-ok branch throws `Error("Failed to fetch readings (status).")`
whose message the catch stores; the catch stores `err.message` for an
`Error` and the fallback text otherwise; success stores the (coerced)
array and the current time; `finally` clears `isFetching`. -/
def fetchSettle (s : AppState) (o : FetchOutcome) (now : ℤ) : AppState :=
  match o with
  | FetchOutcome.httpError status =>
      { s with
        error := some ("Failed to fetch readings (" ++ toString status ++ ").")
        isFetching := false }
  | FetchOutcome.thrown errMsg =>
      { s with
        error := some (errMsg.getD "Could not fetch readings.")
        isFetching := false }
  | FetchOutcome.success p =>
      { s with
        readings := payloadReadings p
        lastUpdated := some now
        isFetching := false }

/-- One complete run of `fetchReadings` on state `s`, resolving with
outcome `o` at time `now`. -/
def fetchReadings (s : AppState) (o : FetchOutcome) (now : ℤ) : AppState :=
  fetchSettle (fetchStart s) o now

/-- `parseDate` from the source, parameterised by the date parsing `dp`
of the environment (`dp s = none` models `new Date(s).getTime()` being
NaN): falsy input (`undefined` or the empty string) gives `null`, and
an unparseable string gives `null`. -/
def parseDate (dp : String → Option ℤ) (input : Option String) : Option ℤ :=
  match input with
  | none => none
  | some s => if s = "" then none else dp s

/-- The effective event time of one reading, as computed for
`lastTimestamp` and for each table row:
`parseDate(timestamp) ?? parseDate(createdAt) ?? parseDate(updatedAt)`. -/
def readingEffectiveTime (dp : String → Option ℤ) (r : Reading) : Option ℤ :=
  (parseDate dp r.timestamp).or
    ((parseDate dp r.createdAt).or (parseDate dp r.updatedAt))

/-- `lastTimestamp` from the source, applied to the window: the
effective event time of `readings.at(0)` (`undefined` fields when the
window is empty). -/
def lastTimestamp (dp : String → Option ℤ) (readings : List Reading) :
    Option ℤ :=
  match readings.head? with
  | none => none
  | some r => readingEffectiveTime dp r

/-- A field is date-like for `dp`: when present it is a non-empty
string the environment parses to a valid date (the type the spec gives the
optional `timestamp`/`createdAt`/`updatedAt` fields). -/
def dateLike (dp : String → Option ℤ) (f : Option String) : Prop :=
  ∀ s, f = some s → s ≠ "" ∧ (dp s).isSome = true

/-- `temperatureStats` from the source:
`collectStats(readings.map((item) => item.temperature).filter((v) => Number.isFinite(v)))`. -/
def temperatureStats (readings : List Reading) : Option Stats :=
  collectStats ((readings.map Reading.temperature).filter jsIsFinite)

/-- `humidityStats` from the source, same pipeline over `humidity`. -/
def humidityStats (readings : List Reading) : Option Stats :=
  collectStats ((readings.map Reading.humidity).filter jsIsFinite)

/-- Concrete date parsing used in witnesses: the result of the call
`new Date(s).getTime()` evaluated at the two ISO-8601 instants the spec
uses as examples; anything else is treated as unparseable. -/
def demoDateParse (s : String) : Option ℤ :=
  if s = "2024-01-01T00:00:00Z" then some 1704067200000
  else if s = "2023-01-01T00:00:00Z" then some 1672531200000
  else none

/-- A sample reading carrying the event-time example of the spec: a
`timestamp` of 2024-01-01 and an earlier `createdAt` of 2023-01-01. -/
def demoReading : Reading :=
  { _id := "65f0a1", sensorId := "esp32-dht22-1", location := "roof",
    temperature := JsNum.num 21, humidity := JsNum.num 40,
    pressure := none,
    timestamp := some "2024-01-01T00:00:00Z",
    createdAt := some "2023-01-01T00:00:00Z",
    updatedAt := none }

/-- The finite elements of a list of JS numbers, exposed as rationals
(the values `filter((v) => Number.isFinite(v))` keeps). -/
def toQ : JsNum → Option ℚ
  | JsNum.num q => some q
  | _ => none

/-- The finite values of a list, as the rational sequence they denote. -/
def finiteParts (values : List JsNum) : List ℚ :=
  values.filterMap toQ

/-- State with one stored reading, a stored timestamp and a pending
validation error: the starting point of the error-clearing scenarios. -/
def errorState : AppState :=
  { initialState with
    readings := [demoReading], lastUpdated := some 1704100000000,
    error := some validationMessage }

/-- State whose limit input is the valid numeral `"15"`. -/
def input15State : AppState := { initialState with limitInput := "15" }

/-- State whose limit input is the non-numeral `"15.7"`. -/
def input157State : AppState := { initialState with limitInput := "15.7" }

/-- State whose limit input is the non-numeral `"12abc"`. -/
def input12abcState : AppState := { initialState with limitInput := "12abc" }

/-- What the catch block stores for a failure outcome `o`: for a thrown
`Error` its own message verbatim, and in every other failure case some
non-empty text. -/
def failMessageOk : FetchOutcome → String → Prop
  | FetchOutcome.thrown (some em), m => m = em
  | _, m => m ≠ ""

theorem foldl_min_le_self (l : List ℚ) (a : ℚ) : l.foldl min a ≤ a := by
  induction l generalizing a with
  | nil => exact le_refl a
  | cons x xs ih => exact le_trans (ih (min a x)) (min_le_left a x)

theorem foldl_min_le_of_mem (l : List ℚ) (a : ℚ) :
    ∀ x ∈ l, l.foldl min a ≤ x := by
  induction l generalizing a with
  | nil => intro x hx; simp at hx
  | cons y ys ih =>
    intro x hx
    rcases List.mem_cons.mp hx with h | h
    · subst h
      exact le_trans (foldl_min_le_self ys (min a x)) (min_le_right a x)
    · exact ih (min a y) x h

theorem foldl_min_mem (l : List ℚ) (a : ℚ) :
    l.foldl min a = a ∨ l.foldl min a ∈ l := by
  induction l generalizing a with
  | nil => exact Or.inl rfl
  | cons y ys ih =>
    rw [List.foldl_cons]
    rcases ih (min a y) with h | h
    · rcases min_choice a y with hm | hm
      · exact Or.inl (h.trans hm)
      · exact Or.inr (by rw [h, hm]; exact List.mem_cons_self y ys)
    · exact Or.inr (List.mem_cons_of_mem y h)

theorem foldl_max_le_self (l : List ℚ) (a : ℚ) : a ≤ l.foldl max a := by
  induction l generalizing a with
  | nil => exact le_refl a
  | cons x xs ih => exact le_trans (le_max_left a x) (ih (max a x))

theorem foldl_max_le_of_mem (l : List ℚ) (a : ℚ) :
    ∀ x ∈ l, x ≤ l.foldl max a := by
  induction l generalizing a with
  | nil => intro x hx; simp at hx
  | cons y ys ih =>
    intro x hx
    rcases List.mem_cons.mp hx with h | h
    · subst h
      exact le_trans (le_max_right a x) (foldl_max_le_self ys (max a x))
    · exact ih (max a y) x h

theorem foldl_max_mem (l : List ℚ) (a : ℚ) :
    l.foldl max a = a ∨ l.foldl max a ∈ l := by
  induction l generalizing a with
  | nil => exact Or.inl rfl
  | cons y ys ih =>
    rw [List.foldl_cons]
    rcases ih (max a y) with h | h
    · rcases max_choice a y with hm | hm
      · exact Or.inl (h.trans hm)
      · exact Or.inr (by rw [h, hm]; exact List.mem_cons_self y ys)
    · exact Or.inr (List.mem_cons_of_mem y h)

theorem foldl_add_eq_add_sum (l : List ℚ) (a : ℚ) :
    l.foldl (fun x y => x + y) a = a + l.sum := by
  induction l generalizing a with
  | nil => simp
  | cons x xs ih => rw [List.foldl_cons, ih (a + x), List.sum_cons, add_assoc]

theorem foldl_jsMin_map (l : List ℚ) (a : ℚ) :
    (l.map JsNum.num).foldl jsMin (JsNum.num a) = JsNum.num (l.foldl min a) := by
  induction l generalizing a with
  | nil => rfl
  | cons x xs ih =>
    simp only [List.map_cons, List.foldl_cons]
    exact ih (min a x)

theorem foldl_jsMax_map (l : List ℚ) (a : ℚ) :
    (l.map JsNum.num).foldl jsMax (JsNum.num a) = JsNum.num (l.foldl max a) := by
  induction l generalizing a with
  | nil => rfl
  | cons x xs ih =>
    simp only [List.map_cons, List.foldl_cons]
    exact ih (max a x)

theorem foldl_jsAdd_map (l : List ℚ) (a : ℚ) :
    (l.map JsNum.num).foldl jsAdd (JsNum.num a)
      = JsNum.num (l.foldl (fun x y => x + y) a) := by
  induction l generalizing a with
  | nil => rfl
  | cons x xs ih =>
    simp only [List.map_cons, List.foldl_cons]
    exact ih (a + x)

theorem jsDiv_num_num (a b : ℚ) (hb : b ≠ 0) :
    jsDiv (JsNum.num a) (JsNum.num b) = JsNum.num (a / b) := by
  simp [jsDiv, hb]

theorem collectStats_map_num (q : ℚ) (qs : List ℚ) :
    collectStats ((q :: qs).map JsNum.num) =
      some { min := JsNum.num (qs.foldl min q)
             max := JsNum.num (qs.foldl max q)
             average := JsNum.num ((q :: qs).sum / ((q :: qs).length : ℚ))
             count := (q :: qs).length } := by
  have hlen : (((q :: qs).length : ℚ)) ≠ 0 := by
    simp [List.length_cons]
    exact_mod_cast Nat.succ_ne_zero qs.length
  unfold collectStats
  rw [List.map_cons]
  simp only [List.isEmpty_cons, if_false, Bool.false_eq_true]
  rw [List.foldl_cons, List.foldl_cons, List.foldl_cons]
  have hmin : jsMin (JsNum.inf true) (JsNum.num q) = JsNum.num q := rfl
  have hmax : jsMax (JsNum.inf false) (JsNum.num q) = JsNum.num q := rfl
  have hadd : jsAdd (JsNum.num 0) (JsNum.num q) = JsNum.num (0 + q) := rfl
  rw [hmin, hmax, hadd, foldl_jsMin_map, foldl_jsMax_map, foldl_jsAdd_map]
  rw [foldl_add_eq_add_sum]
  rw [List.length_cons, List.length_map]
  rw [jsDiv_num_num _ _ (by simpa using hlen)]
  rw [List.sum_cons, List.length_cons]
  simp

theorem filter_finite_eq (values : List JsNum) :
    values.filter jsIsFinite = (finiteParts values).map JsNum.num := by
  induction values with
  | nil => rfl
  | cons v vs ih =>
    cases v <;>
      simp [finiteParts, List.filterMap_cons, List.filter_cons, jsIsFinite,
        toQ, ih]

theorem collectStats_cons_spec (q : ℚ) (qs : List ℚ) :
    ∃ s, collectStats ((q :: qs).map JsNum.num) = some s ∧
      s.count = (q :: qs).length ∧
      (∃ m, s.min = JsNum.num m ∧ m ∈ q :: qs ∧ ∀ x ∈ q :: qs, m ≤ x) ∧
      (∃ M, s.max = JsNum.num M ∧ M ∈ q :: qs ∧ ∀ x ∈ q :: qs, x ≤ M) ∧
      s.average = JsNum.num ((q :: qs).sum / ((q :: qs).length : ℚ)) := by
  refine ⟨_, collectStats_map_num q qs, rfl,
    ⟨qs.foldl min q, rfl, ?_, ?_⟩, ⟨qs.foldl max q, rfl, ?_, ?_⟩, rfl⟩
  · rcases foldl_min_mem qs q with h | h
    · rw [h]; exact List.mem_cons_self q qs
    · exact List.mem_cons_of_mem q h
  · intro x hx
    rcases List.mem_cons.mp hx with h | h
    · subst h; exact foldl_min_le_self qs x
    · exact foldl_min_le_of_mem qs q x h
  · rcases foldl_max_mem qs q with h | h
    · rw [h]; exact List.mem_cons_self q qs
    · exact List.mem_cons_of_mem q h
  · intro x hx
    rcases List.mem_cons.mp hx with h | h
    · subst h; exact foldl_max_le_self qs x
    · exact foldl_max_le_of_mem qs q x h

/-- C9: the stats aggregator returns null for the empty sequence; for
every non-empty sequence of finite numbers it returns min and max equal
to the extrema of the sequence, average equal to the sum divided by the
length, and count equal to the length; in particular `[1,2,3]` yields
min 1, max 3, average 2, count 3. -/
theorem C9_collectStats_extrema :
    collectStats [] = none ∧
    (∀ (q : ℚ) (qs : List ℚ),
      ∃ s, collectStats ((q :: qs).map JsNum.num) = some s ∧
        s.count = (q :: qs).length ∧
        (∃ m, s.min = JsNum.num m ∧ m ∈ q :: qs ∧ ∀ x ∈ q :: qs, m ≤ x) ∧
        (∃ M, s.max = JsNum.num M ∧ M ∈ q :: qs ∧ ∀ x ∈ q :: qs, x ≤ M) ∧
        s.average = JsNum.num ((q :: qs).sum / ((q :: qs).length : ℚ))) ∧
    collectStats [JsNum.num 1, JsNum.num 2, JsNum.num 3]
      = some { min := JsNum.num 1, max := JsNum.num 3,
               average := JsNum.num 2, count := 3 } :=
  ⟨rfl, collectStats_cons_spec,
    by norm_num [collectStats, jsAdd, jsDiv, jsMin, jsMax]⟩

/-- Witness for C9 at the concrete inputs `[]` and `[1,2,3]`. -/
theorem C9_witness :
    collectStats [] = none ∧
    collectStats [JsNum.num 1, JsNum.num 2, JsNum.num 3]
      = some { min := JsNum.num 1, max := JsNum.num 3,
               average := JsNum.num 2, count := 3 } :=
  ⟨C9_collectStats_extrema.1, C9_collectStats_extrema.2.2⟩

/-- C2: the aggregation pipeline drops exactly the non-finite values
before aggregating: the filtered sequence is the finite values; when it
is empty the result is null, and otherwise min, max, average and count
are computed over the filtered sequence only; `[NaN, 5]` yields
min 5, max 5, average 5, count 1. -/
theorem C2_statsPipeline_filters_nonfinite (values : List JsNum) :
    values.filter jsIsFinite = (finiteParts values).map JsNum.num ∧
    (finiteParts values = [] → statsPipeline values = none) ∧
    (∀ (q : ℚ) (qs : List ℚ), finiteParts values = q :: qs →
      ∃ s, statsPipeline values = some s ∧
        s.count = (q :: qs).length ∧
        (∃ m, s.min = JsNum.num m ∧ m ∈ q :: qs ∧ ∀ x ∈ q :: qs, m ≤ x) ∧
        (∃ M, s.max = JsNum.num M ∧ M ∈ q :: qs ∧ ∀ x ∈ q :: qs, x ≤ M) ∧
        s.average = JsNum.num ((q :: qs).sum / ((q :: qs).length : ℚ))) ∧
    statsPipeline [JsNum.nan, JsNum.num 5]
      = some { min := JsNum.num 5, max := JsNum.num 5,
               average := JsNum.num 5, count := 1 } := by
  refine ⟨filter_finite_eq values, ?_, ?_,
    by norm_num [statsPipeline, collectStats, jsIsFinite, jsAdd, jsDiv,
      jsMin, jsMax]⟩
  · intro h
    unfold statsPipeline
    rw [filter_finite_eq values, h]
    rfl
  · intro q qs h
    unfold statsPipeline
    rw [filter_finite_eq values, h]
    exact collectStats_cons_spec q qs

/-- Witness for C2: at `[NaN]` the filtered sequence is empty and the
pipeline yields null. -/
theorem C2_witness : statsPipeline [JsNum.nan] = none :=
  (C2_statsPipeline_filters_nonfinite [JsNum.nan]).2.1 rfl

theorem gaugePercent_num (v minV maxV : ℚ) :
    gaugePercent (some (JsNum.num v)) minV maxV
      = JsNum.num (min (max ((v - minV) / max (maxV - minV) 1) 0) 1) := by
  have hspan : max (maxV - minV) 1 ≠ 0 :=
    ne_of_gt (lt_of_lt_of_le zero_lt_one (le_max_right _ _))
  show jsMin (jsMax (jsDiv (JsNum.num (v - minV))
      (JsNum.num (max (maxV - minV) 1))) (JsNum.num 0)) (JsNum.num 1) = _
  rw [jsDiv_num_num _ _ hspan]
  rfl

theorem gaugePercent_undefined (minV maxV : ℚ) :
    gaugePercent none minV maxV = gaugePercent (some (JsNum.num 0)) minV maxV :=
  rfl

theorem gaugePercent_inf (b : Bool) (minV maxV : ℚ) :
    gaugePercent (some (JsNum.inf b)) minV maxV
      = JsNum.num (if b then 1 else 0) := by
  have h1 : ¬ (max (maxV - minV) 1 < 0) :=
    not_lt.mpr (le_trans zero_le_one (le_max_right _ _))
  cases b with
  | true =>
    show jsMin (jsMax (if max (maxV - minV) 1 < 0 then JsNum.inf false
        else JsNum.inf true) (JsNum.num 0)) (JsNum.num 1) = _
    rw [if_neg h1]
    rfl
  | false =>
    show jsMin (jsMax (if max (maxV - minV) 1 < 0 then JsNum.inf true
        else JsNum.inf false) (JsNum.num 0)) (JsNum.num 1) = _
    rw [if_neg h1]
    show JsNum.num (min 0 1) = JsNum.num 0
    norm_num

/-- Counterexample for C3: for the NaN value (temperature gauge range
0..50) the computed percent is NaN itself, so the resulting percent is
not a number lying in [0,1]. -/
theorem C3_counterexample :
    gaugePercent (some JsNum.nan) 0 50 = JsNum.nan ∧
    jsIsFinite (gaugePercent (some JsNum.nan) 0 50) = false := by
  constructor <;>
    norm_num [gaugePercent, jsSub, jsDiv, jsMin, jsMax, jsIsFinite]

/-- C3 (amended): the span is `max(max - min, 1) ≥ 1`, so no division
by zero occurs even when min = max; for every value other than NaN the
resulting percent is a number in [0,1] (a missing value is treated as
0, and for finite values percent = clamp((value − min)/span, 0, 1));
(25, 0, 50) maps to 0.5 and (−5, 0, 50) maps to 0.  For the NaN value
the percent is NaN rather than a number in [0,1]. -/
theorem C3_gauge_percent_in_unit_interval (value : Option JsNum)
    (minV maxV : ℚ) (h : value ≠ some JsNum.nan) :
    1 ≤ max (maxV - minV) 1 ∧
    (∃ q, gaugePercent value minV maxV = JsNum.num q ∧ 0 ≤ q ∧ q ≤ 1) ∧
    (∀ v : ℚ, value = some (JsNum.num v) →
      gaugePercent value minV maxV
        = JsNum.num (min (max ((v - minV) / max (maxV - minV) 1) 0) 1)) ∧
    gaugePercent (some (JsNum.num 25)) 0 50 = JsNum.num (1/2) ∧
    gaugePercent (some (JsNum.num (-5))) 0 50 = JsNum.num 0 := by
  have hclamp : ∀ x : ℚ, 0 ≤ min (max x 0) 1 ∧ min (max x 0) 1 ≤ 1 :=
    fun x => ⟨le_min (le_max_right x 0) zero_le_one, min_le_right _ 1⟩
  refine ⟨le_max_right _ 1, ?_, ?_,
    by norm_num [gaugePercent, jsSub, jsDiv, jsMin, jsMax],
    by norm_num [gaugePercent, jsSub, jsDiv, jsMin, jsMax]⟩
  · match value with
    | none =>
        rw [gaugePercent_undefined, gaugePercent_num]
        exact ⟨_, rfl, (hclamp _).1, (hclamp _).2⟩
    | some JsNum.nan => exact absurd rfl h
    | some (JsNum.inf b) =>
        rw [gaugePercent_inf]
        cases b
        · exact ⟨0, rfl, le_refl 0, zero_le_one⟩
        · exact ⟨1, rfl, zero_le_one, le_refl 1⟩
    | some (JsNum.num v) =>
        rw [gaugePercent_num]
        exact ⟨_, rfl, (hclamp _).1, (hclamp _).2⟩
  · intro v hv
    rw [hv, gaugePercent_num]

/-- Witness for C3 (amended) at value 25 on the 0..50 range. -/
theorem C3_witness :
    ∃ q, gaugePercent (some (JsNum.num 25)) 0 50 = JsNum.num q ∧
      0 ≤ q ∧ q ≤ 1 :=
  (C3_gauge_percent_in_unit_interval (some (JsNum.num 25)) 0 50
    (by simp)).2.1

/-- Counterexample for C4: the value +Infinity is non-finite, yet the
gauge reports a non-empty display state for it. -/
theorem C4_counterexample :
    gaugeIsEmpty (some (JsNum.inf true)) = false ∧
    jsIsFinite (JsNum.inf true) = false :=
  ⟨rfl, rfl⟩

/-- C4 (amended): the gauge reports the empty display state exactly
when the value is missing (undefined) or NaN; every finite value
reports non-empty — but so do the two infinities, which are non-finite
yet not treated as empty. -/
theorem C4_gauge_empty_iff (value : Option JsNum) :
    (gaugeIsEmpty value = true ↔ value = none ∨ value = some JsNum.nan) ∧
    (∀ v, jsIsFinite v = true → gaugeIsEmpty (some v) = false) := by
  constructor
  · match value with
    | none => simp [gaugeIsEmpty]
    | some v => cases v <;> simp [gaugeIsEmpty, jsIsNaN]
  · intro v hv
    cases v with
    | nan => simp [jsIsFinite] at hv
    | inf b => rfl
    | num q => rfl

/-- Witness for C4 (amended): the finite value 21 reports non-empty. -/
theorem C4_witness : gaugeIsEmpty (some (JsNum.num 21)) = false :=
  (C4_gauge_empty_iff (some (JsNum.num 21))).2 (JsNum.num 21) rfl

/-- Counterexample for C1: a transport failure whose thrown `Error`
carries the empty message leaves the window untouched but sets the
error message to the empty string, not to a non-empty string. -/
theorem C1_counterexample :
    (fetchReadings errorState (FetchOutcome.thrown (some "")) 0).readings
      = errorState.readings ∧
    (fetchReadings errorState (FetchOutcome.thrown (some "")) 0).error
      = some "" ∧
    String.length "" = 0 :=
  ⟨rfl, rfl, rfl⟩

/-- C1 (amended): on every failed poll (non-success HTTP status or
transport error) the stored window, the limit and the last-updated
timestamp are exactly what they were before the poll — the window is
never partially updated — `isFetching` is cleared, and the error
message is set: the non-empty status message for a non-success HTTP
status, the non-empty fallback message for a non-`Error` throw, and the
message carried by the thrown error (empty exactly when that is empty)
for a thrown `Error`. -/
theorem C1_fetch_failure_preserves_window (s : AppState) (o : FetchOutcome)
    (now : ℤ) (hfail : fetchFails o = true) :
    (fetchReadings s o now).readings = s.readings ∧
    (fetchReadings s o now).limit = s.limit ∧
    (fetchReadings s o now).lastUpdated = s.lastUpdated ∧
    (fetchReadings s o now).isFetching = false ∧
    ∃ m, (fetchReadings s o now).error = some m ∧ failMessageOk o m := by
  cases o with
  | httpError st =>
    refine ⟨rfl, rfl, rfl, rfl, _, rfl, ?_⟩
    show "Failed to fetch readings (" ++ toString st ++ ")." ≠ ""
    intro h
    have h2 := congrArg String.length h
    rw [String.length_append, String.length_append] at h2
    have h3 : "Failed to fetch readings (".length = 26 := rfl
    have h4 : ").".length = 2 := rfl
    rw [h3, h4] at h2
    simp at h2
  | thrown em =>
    cases em with
    | none =>
      refine ⟨rfl, rfl, rfl, rfl, "Could not fetch readings.", rfl, ?_⟩
      show "Could not fetch readings." ≠ ""
      decide
    | some m => exact ⟨rfl, rfl, rfl, rfl, m, rfl, rfl⟩
  | success p => simp [fetchFails] at hfail

/-- Witness for C1 (amended) at an HTTP 500 failure on a state holding
one reading. -/
theorem C1_witness :
    (fetchReadings errorState (FetchOutcome.httpError 500) 0).readings
      = errorState.readings :=
  (C1_fetch_failure_preserves_window errorState (FetchOutcome.httpError 500)
    0 rfl).1

/-- C8: every successful poll replaces the window wholesale: an array
payload (the empty array included) becomes exactly the stored window, a
non-array payload becomes the empty window, and the last-updated
timestamp is set to the completion time of the poll. -/
theorem C8_success_replaces_window (s : AppState) (p : Payload) (now : ℤ) :
    (∀ l, p = Payload.arr l →
      (fetchReadings s (FetchOutcome.success p) now).readings = l) ∧
    (p = Payload.nonArray →
      (fetchReadings s (FetchOutcome.success p) now).readings = []) ∧
    (fetchReadings s (FetchOutcome.success p) now).lastUpdated = some now := by
  refine ⟨?_, ?_, rfl⟩
  · intro l hl
    rw [hl]
    rfl
  · intro hp
    rw [hp]
    rfl

/-- Witness for C8: a successful poll with a one-element array stores
exactly that array. -/
theorem C8_witness :
    (fetchReadings initialState
      (FetchOutcome.success (Payload.arr [demoReading])) 7).readings
      = [demoReading] :=
  (C8_success_replaces_window initialState (Payload.arr [demoReading]) 7).1
    [demoReading] rfl

/-- Counterexample for C6: a pending ValidationError message is cleared
by a subsequent successful poll, with no resubmission of the limit
input involved — `fetchReadings` clears the error when it starts. -/
theorem C6_counterexample :
    errorState.error = some validationMessage ∧
    (fetchReadings errorState
      (FetchOutcome.success (Payload.arr [])) 0).error = none :=
  ⟨rfl, rfl⟩

/-- C6 (amended): a new error message replaces any prior message, and
every poll clears the stored message when it starts: a successful poll
leaves it cleared (this clears FetchError and ValidationError messages
alike), a failed poll stores a new fetch-error message, an invalid
resubmission stores the validation message, and a valid resubmission
leaves the message untouched but triggers an immediate poll whose
success clears it. -/
theorem C6_error_replacement_and_clearing (s : AppState) (p : Payload)
    (o : FetchOutcome) (now : ℤ) :
    (fetchStart s).error = none ∧
    (fetchReadings s (FetchOutcome.success p) now).error = none ∧
    (fetchFails o = true → ∃ m, (fetchReadings s o now).error = some m) ∧
    ((∀ q, jsParseInt s.limitInput = some q → q ≤ 0) →
      (handleSubmit s).1.error = some validationMessage ∧
      (handleSubmit s).2 = none) ∧
    (∀ q, jsParseInt s.limitInput = some q → 0 < q →
      (handleSubmit s).1.error = s.error ∧
      (handleSubmit s).2 = some q ∧
      (fetchReadings (handleSubmit s).1
        (FetchOutcome.success p) now).error = none) := by
  refine ⟨rfl, rfl, ?_, ?_, ?_⟩
  · intro h
    cases o with
    | httpError st => exact ⟨_, rfl⟩
    | thrown em => exact ⟨_, rfl⟩
    | success p2 => simp [fetchFails] at h
  · intro hbad
    unfold handleSubmit
    cases hj : jsParseInt s.limitInput with
    | none => exact ⟨rfl, rfl⟩
    | some q =>
      have hq2 : q ≤ 0 := hbad q hj
      simp only [hq2, if_pos]
      exact ⟨trivial, trivial⟩
  · intro q hj hq
    have hq2 : ¬ q ≤ 0 := not_le.mpr hq
    unfold handleSubmit
    rw [hj]
    simp only [hq2, if_false, ite_false]
    exact ⟨trivial, trivial, rfl⟩

/-- Witness for C6 (amended): committing the valid input "20" on the
error-holding state triggers a poll, whose subsequent success clears the
message. -/
theorem C6_witness :
    (handleSubmit errorState).2 = some 20 ∧
    (fetchReadings (handleSubmit errorState).1
      (FetchOutcome.success (Payload.arr [])) 0).error = none :=
  ⟨((C6_error_replacement_and_clearing errorState (Payload.arr [])
      (FetchOutcome.success (Payload.arr [])) 0).2.2.2.2 20 (by decide)
      (by decide)).2.1,
   ((C6_error_replacement_and_clearing errorState (Payload.arr [])
      (FetchOutcome.success (Payload.arr [])) 0).2.2.2.2 20 (by decide)
      (by decide)).2.2⟩

/-- C5: commit parses the raw input as a base-10 integer and fails with
the validation error exactly when the parse yields NaN or a value ≤ 0
(leaving the rest of the state unchanged and triggering no poll); on
success the active limit becomes the parsed value and one immediate
poll with that limit is triggered; "0", "-3" and "abc" all fail while
"15" succeeds. -/
theorem C5_commit_validation (s : AppState) :
    (((handleSubmit s).1 = { s with error := some validationMessage } ∧
        (handleSubmit s).2 = none)
      ↔ (∀ q, jsParseInt s.limitInput = some q → q ≤ 0)) ∧
    (∀ q, jsParseInt s.limitInput = some q → 0 < q →
      (handleSubmit s).1 = { s with limit := q } ∧
      (handleSubmit s).2 = some q) ∧
    jsParseInt "0" = some 0 ∧ jsParseInt "-3" = some (-3) ∧
    jsParseInt "abc" = none ∧ jsParseInt "15" = some 15 := by
  refine ⟨⟨?_, ?_⟩, ?_, by decide, by decide, by decide, by decide⟩
  · rintro ⟨h1, h2⟩ q hj
    by_contra hq
    push_neg at hq
    have hq2 : ¬ q ≤ 0 := not_le.mpr hq
    unfold handleSubmit at h2
    rw [hj] at h2
    simp only [hq2, if_false, ite_false] at h2
    simp at h2
  · intro hbad
    unfold handleSubmit
    cases hj : jsParseInt s.limitInput with
    | none => exact ⟨rfl, rfl⟩
    | some q =>
      have hq2 : q ≤ 0 := hbad q hj
      simp only [hq2, if_pos]
      exact ⟨trivial, trivial⟩
  · intro q hj hq
    have hq2 : ¬ q ≤ 0 := not_le.mpr hq
    unfold handleSubmit
    rw [hj]
    simp only [hq2, if_false, ite_false]
    exact ⟨trivial, trivial⟩

/-- Witness for C5 at the input "15": commit succeeds, sets the limit
to 15 and triggers an immediate poll with limit 15. -/
theorem C5_witness :
    (handleSubmit input15State).1 = { input15State with limit := 15 } ∧
    (handleSubmit input15State).2 = some 15 :=
  (C5_commit_validation input15State).2.1 15 (by decide) (by decide)

/-- C10: raw inputs that are not decimal integer numerals can still
commit: base-10 parsing takes the integer prefix, so "15.7" parses to
15 and "12abc" to 12, and commit succeeds on both, setting the active
limit to that prefix and triggering an immediate poll with it. -/
theorem C10_integer_prefix_inputs :
    jsParseInt "15.7" = some 15 ∧ jsParseInt "12abc" = some 12 ∧
    handleSubmit input157State
      = ({ input157State with limit := 15 }, some 15) ∧
    handleSubmit input12abcState
      = ({ input12abcState with limit := 12 }, some 12) := by
  refine ⟨by decide, by decide, by decide, by decide⟩

/-- C7: under the typing of the data model (every present time field is
date-like, i.e. a non-empty string the environment parses), the
effective event time of a Reading is taken from the first present of
timestamp, createdAt, updatedAt, in that priority order — so a Reading
with both a timestamp and an earlier createdAt resolves to the
timestamp field — and when all three are absent it is unknown. -/
theorem C7_effective_time_priority (dp : String → Option ℤ) (r : Reading)
    (h1 : dateLike dp r.timestamp) (h2 : dateLike dp r.createdAt)
    (h3 : dateLike dp r.updatedAt) :
    (∀ s, r.timestamp = some s → readingEffectiveTime dp r = dp s) ∧
    (r.timestamp = none → ∀ s, r.createdAt = some s →
      readingEffectiveTime dp r = dp s) ∧
    (r.timestamp = none → r.createdAt = none → ∀ s, r.updatedAt = some s →
      readingEffectiveTime dp r = dp s) ∧
    (r.timestamp = none → r.createdAt = none → r.updatedAt = none →
      readingEffectiveTime dp r = none) := by
  refine ⟨?_, ?_, ?_, ?_⟩
  · intro s hs
    obtain ⟨hne, hsome⟩ := h1 s hs
    obtain ⟨t, ht⟩ := Option.isSome_iff_exists.mp hsome
    unfold readingEffectiveTime parseDate
    rw [hs]
    dsimp only
    rw [if_neg hne, ht]
    rfl
  · intro hts s hs
    obtain ⟨hne, hsome⟩ := h2 s hs
    obtain ⟨t, ht⟩ := Option.isSome_iff_exists.mp hsome
    unfold readingEffectiveTime parseDate
    rw [hts, hs]
    dsimp only
    rw [if_neg hne, ht]
    rfl
  · intro hts hca s hs
    obtain ⟨hne, hsome⟩ := h3 s hs
    obtain ⟨t, ht⟩ := Option.isSome_iff_exists.mp hsome
    unfold readingEffectiveTime parseDate
    rw [hts, hca, hs]
    dsimp only
    rw [if_neg hne, ht]
    rfl
  · intro hts hca hua
    unfold readingEffectiveTime parseDate
    rw [hts, hca, hua]
    rfl

/-- Witness for C7: the demo reading carries a 2024 timestamp and an
earlier 2023 createdAt; its effective time is the instant held by the
timestamp field. -/
theorem C7_witness :
    readingEffectiveTime demoDateParse demoReading = some 1704067200000 := by
  have h1 : dateLike demoDateParse demoReading.timestamp := by
    intro u hu
    have hu2 : some "2024-01-01T00:00:00Z" = some u := hu
    cases hu2
    exact ⟨by decide, by decide⟩
  have h2 : dateLike demoDateParse demoReading.createdAt := by
    intro u hu
    have hu2 : some "2023-01-01T00:00:00Z" = some u := hu
    cases hu2
    exact ⟨by decide, by decide⟩
  have h3 : dateLike demoDateParse demoReading.updatedAt := by
    intro u hu
    have hu2 : (none : Option String) = some u := hu
    cases hu2
  have h := (C7_effective_time_priority demoDateParse demoReading h1 h2 h3).1
    "2024-01-01T00:00:00Z" rfl
  rw [h]
  decide
